import Mathlib

/-!
Verification of the DashMap client against its specification.

The audio and protocol code is embedded shallowly: numeric sample values are
modelled as exact rationals, byte buffers as lists of naturals below 256,
JavaScript strings as lists of characters, and the event-driven parts
(WebSocket handlers, the playback queue, the polling loop) as explicit
transition functions over small state types.  Platform primitives that the
code calls (`btoa`/`atob`, the `Int16Array` element conversion,
`decodeAudioData`) are modelled from their standard semantics.
-/

namespace DashMap

/-! ## JavaScript numeric primitives -/

/-- Truncation toward zero of a rational, as applied by ECMAScript when a
number is converted to an integer (`ToIntegerOrInfinity`). -/
def ratTrunc (q : ℚ) : ℤ :=
  if 0 ≤ q then ⌊q⌋ else ⌈q⌉

/-- ECMAScript `ToInt16`, the conversion applied when a number is stored into
an `Int16Array` element: truncate toward zero, reduce modulo 2^16, and map
the residue into the signed 16-bit range. -/
def jsToInt16 (q : ℚ) : ℤ :=
  if 32768 ≤ ratTrunc q % 65536 then ratTrunc q % 65536 - 65536
  else ratTrunc q % 65536

/-! ## PCM sample conversions (C5)

`usePCMAudioRecorder` (part_005) and `convertWebMToPCM` (audioUtils.ts) store
`Math.max(-32768, Math.min(32767, x * 32767))` into an `Int16Array`;
`AudioManager.startRecording` (part_009) clamps `x` to `[-1, 1]` first and
then scales negatives by `0x8000` and non-negatives by `0x7fff`. -/

/-- Sample conversion in the `onaudioprocess` handler of
`usePCMAudioRecorder` (part_005):
`pcmData[i] = Math.max(-32768, Math.min(32767, inputData[i] * 32767))`
stored into an `Int16Array` element. -/
def pcmSample_part005 (x : ℚ) : ℤ :=
  jsToInt16 (max (-32768) (min 32767 (x * 32767)))

/-- Sample conversion in `convertWebMToPCM` (src/utils/audioUtils.ts):
`pcmData[i] = Math.max(-32768, Math.min(32767, channelData[i] * 32767))`
stored into an `Int16Array` element. -/
def pcmSample_audioUtils (x : ℚ) : ℤ :=
  jsToInt16 (max (-32768) (min 32767 (x * 32767)))

/-- Sample conversion in `AudioManager.startRecording` (part_009):
`const sample = Math.max(-1, Math.min(1, inputData[i]));`
`pcmData[i] = sample < 0 ? sample * 0x8000 : sample * 0x7fff` stored into an
`Int16Array` element. -/
def pcmSample_part009 (x : ℚ) : ℤ :=
  jsToInt16 (if max (-1) (min 1 x) < 0 then max (-1) (min 1 x) * 32768
             else max (-1) (min 1 x) * 32767)

/-- The conversion the specification describes:
`round(clamp(x, -1, 1) * 32767)`, with `round` the usual half-up rounding of
JavaScript `Math.round`. -/
def specRoundPCM (x : ℚ) : ℤ :=
  ⌊max (-1) (min 1 x) * 32767 + 1 / 2⌋

/-! ## Base64 (C9)

`ElevenLabsService.arrayBufferToBase64` builds a binary string from the bytes
of the buffer and calls the platform's `btoa`; `base64ToArrayBuffer` calls
`atob` and reads the character codes back.  `btoa`/`atob` are modelled from
RFC 4648 base64 with `=` padding. -/

/-- The base64 alphabet: sextet value to character. -/
def b64EncChar (n : Nat) : Char :=
  if n < 26 then Char.ofNat (65 + n)
  else if n < 52 then Char.ofNat (71 + n)
  else if n < 62 then Char.ofNat (n - 4)
  else if n = 62 then '+'
  else '/'

/-- The base64 alphabet: character back to sextet value. -/
def b64DecChar (c : Char) : Nat :=
  if 'A' ≤ c ∧ c ≤ 'Z' then c.toNat - 65
  else if 'a' ≤ c ∧ c ≤ 'z' then c.toNat - 71
  else if '0' ≤ c ∧ c ≤ '9' then c.toNat + 4
  else if c = '+' then 62
  else if c = '/' then 63
  else 0

/-- Model of the platform `btoa` on a list of byte values: RFC 4648 base64
encoding with `=` padding. -/
def encodeB64 : List Nat → List Char
  | [] => []
  | [a] =>
    [b64EncChar (a / 4), b64EncChar (a % 4 * 16), '=', '=']
  | [a, b] =>
    [b64EncChar (a / 4), b64EncChar (a % 4 * 16 + b / 16),
     b64EncChar (b % 16 * 4), '=']
  | a :: b :: c :: rest =>
    b64EncChar (a / 4) :: b64EncChar (a % 4 * 16 + b / 16) ::
    b64EncChar (b % 16 * 4 + c / 64) :: b64EncChar (c % 64) ::
    encodeB64 rest

/-- Model of the platform `atob` on a base64 text: RFC 4648 base64 decoding
with `=` padding. -/
def decodeB64 : List Char → List Nat
  | c1 :: c2 :: c3 :: c4 :: rest =>
    if c3 = '=' then
      [b64DecChar c1 * 4 + b64DecChar c2 / 16]
    else if c4 = '=' then
      [b64DecChar c1 * 4 + b64DecChar c2 / 16,
       b64DecChar c2 % 16 * 16 + b64DecChar c3 / 4]
    else
      (b64DecChar c1 * 4 + b64DecChar c2 / 16) ::
      (b64DecChar c2 % 16 * 16 + b64DecChar c3 / 4) ::
      (b64DecChar c3 % 4 * 64 + b64DecChar c4) ::
      decodeB64 rest
  | _ => []

/-- `ElevenLabsService.arrayBufferToBase64` (part_001): each byte is turned
into the character with that code (`String.fromCharCode`) and the resulting
binary string is passed to `btoa`. -/
def arrayBufferToBase64 (buffer : List Nat) : List Char :=
  encodeB64 ((buffer.map Char.ofNat).map Char.toNat)

/-- `ElevenLabsService.base64ToArrayBuffer` (part_001): the base64 text is
decoded with `atob` and the character codes of the resulting binary string
(`charCodeAt`) become the bytes of the buffer. -/
def base64ToArrayBuffer (base64 : List Char) : List Nat :=
  ((decodeB64 base64).map Char.ofNat).map Char.toNat

/-! ## convertWebMToPCM (C10)

The platform decoder `decodeAudioData` is a parameter: it either yields the
float channel data or fails.  The function body (src/utils/audioUtils.ts) is
one `try`/`catch` whose handler returns `new Int16Array(1600)`. -/

/-- `convertWebMToPCM` (src/utils/audioUtils.ts): decode the container with
the platform decoder, convert the first channel to 16-bit PCM; on any
failure the `catch` block resolves with a 1600-sample all-zero buffer
(100 ms of silence at 16 kHz) instead of rejecting. -/
def convertWebMToPCM (decodeAudioData : List Nat → Except String (List ℚ))
    (webmData : List Nat) : Except String (List ℤ) :=
  match decodeAudioData webmData with
  | .ok channelData => .ok (channelData.map pcmSample_audioUtils)
  | .error _ => .ok (List.replicate 1600 0)

/-! ## Upload response handling (C7)

Both variants of `MemoriesApiClient.uploadVideo` resolve from the `load`
listener of the `XMLHttpRequest`.  The parsed JSON body is modelled as an
optional record (`none` when `JSON.parse` throws). -/

/-- JavaScript `a || b` on an optional string: the fallback is used when the
value is absent or is the empty string (both are falsy). -/
def jsStringOr (v : Option String) (fallback : String) : String :=
  match v with
  | none => fallback
  | some s => if s = "" then fallback else s

/-- The JSON body of an upload response: the application status `code`, the
`msg` field used by src/lib/memories-api.ts, and the `message` field used by
the part_008 variant. -/
structure UploadBody where
  code : String
  msg : Option String
  message : Option String
deriving DecidableEq

/-- The value the upload promise resolves with. -/
structure UploadResult where
  success : Bool
  body : Option UploadBody
  error : Option String
deriving DecidableEq

/-- `load` handler of `MemoriesApiClient.uploadVideo` in
src/lib/memories-api.ts: on HTTP 2xx the application `code` in the body
decides success (`"0000"` succeeds, anything else fails with the body's
`msg`); non-2xx and unparseable bodies fail. -/
def uploadVideoLoad (status : Nat) (parsed : Option UploadBody) :
    UploadResult :=
  match parsed with
  | none => ⟨false, none, some "Failed to parse response"⟩
  | some response =>
    if 200 ≤ status ∧ status < 300 then
      if response.code = "0000" then ⟨true, some response, none⟩
      else ⟨false, none, some (jsStringOr response.msg "Upload failed")⟩
    else
      ⟨false, none,
       some (jsStringOr response.msg ("HTTP error! status: " ++ toString status))⟩

/-- `load` handler of the `uploadVideo` variant in part_008: any HTTP 2xx
response resolves as success, with no check of the application `code`. -/
def uploadVideoLoad_part008 (status : Nat) (parsed : Option UploadBody) :
    UploadResult :=
  match parsed with
  | none => ⟨false, none, some "Failed to parse response"⟩
  | some data =>
    if 200 ≤ status ∧ status < 300 then ⟨true, some data, none⟩
    else
      ⟨false, none,
       some (jsStringOr data.message ("HTTP error! status: " ++ toString status))⟩

/-! ## Video status polling (C8)

`MemoriesApiClient.pollVideoStatus` (src/lib/memories-api.ts) loops
`for (attempt = 0; attempt < maxAttempts; attempt++)`, calling
`getVideoTranscription` each round; the outcome of round `i` is supplied by
the oracle `attemptResult i`.  The loop counter is mirrored by the `fuel`
argument, which equals `maxAttempts - attempt` throughout. -/

/-- Outcome of one `getVideoTranscription` call: resolved success, resolved
failure with an error message, or a thrown exception. -/
inductive AttemptOutcome where
  | ok
  | err (msg : String)
  | thrown (msg : String)
deriving DecidableEq

/-- The value `pollVideoStatus` resolves with. -/
structure PollResult where
  success : Bool
  data : Option String
  error : Option String
deriving DecidableEq

/-- Whether `pat` occurs as a contiguous run inside the second list. -/
def containsSub (pat : List Char) : List Char → Bool
  | [] => pat.isEmpty
  | c :: rest => pat.isPrefixOf (c :: rest) || containsSub pat rest

/-- JavaScript `String.prototype.includes`. -/
def jsIncludes (s pat : String) : Bool :=
  containsSub pat.toList s.toList

/-- The "still processing" vocabulary test of `pollVideoStatus`:
`error?.includes('not found') || error?.includes('processing') ||
error?.includes('not ready') || error?.includes('still processing')`. -/
def isProcessingError (e : String) : Bool :=
  jsIncludes e "not found" || jsIncludes e "processing" ||
  jsIncludes e "not ready" || jsIncludes e "still processing"

/-- The result returned after the `for` loop of `pollVideoStatus`. -/
def pollTimeoutResult : PollResult :=
  ⟨false, none, some "Video processing timeout - max attempts reached"⟩

/-- The loop body of `pollVideoStatus`: a successful transcription returns
`'PARSE'`; a failure whose message matches the processing vocabulary waits
and retries only while `attempt < maxAttempts - 1`, otherwise the failure is
returned as is; a thrown exception is returned on the last attempt and
otherwise retried.  Exhausting the loop returns the timeout result. -/
def pollVideoStatusAux (attemptResult : Nat → AttemptOutcome)
    (maxAttempts : Nat) : Nat → Nat → PollResult
  | 0, _ => pollTimeoutResult
  | fuel + 1, attempt =>
    match attemptResult attempt with
    | .ok => ⟨true, some "PARSE", none⟩
    | .err e =>
      if isProcessingError e ∧ attempt < maxAttempts - 1 then
        pollVideoStatusAux attemptResult maxAttempts fuel (attempt + 1)
      else ⟨false, none, some e⟩
    | .thrown e =>
      if attempt = maxAttempts - 1 then ⟨false, none, some e⟩
      else pollVideoStatusAux attemptResult maxAttempts fuel (attempt + 1)

/-- `MemoriesApiClient.pollVideoStatus` with its attempt budget
(`maxAttempts`, default 30; the fixed 5000 ms interval between attempts does
not influence the result value). -/
def pollVideoStatus (attemptResult : Nat → AttemptOutcome)
    (maxAttempts : Nat) : PollResult :=
  pollVideoStatusAux attemptResult maxAttempts maxAttempts 0

/-! ## The voice channel state machines (C1, C3)

Three implementations open the conversational WebSocket: the
`useElevenLabsWebSocket` hook of part_004, the older hook variant of
part_003, and `ElevenLabsService.startConversation` (part_001).  Each is
modelled as a handler of transport events.  `connect` leaves the hooks in
`connecting` before any event arrives. -/

/-- The `ConnectionState` union of the hooks. -/
inductive ConnState where
  | disconnected
  | connecting
  | connected
  | error
deriving DecidableEq

/-- An inbound message on the conversational WebSocket, keyed by the JSON
discriminant `type` (or a binary Blob frame). -/
inductive InboundMsg where
  | initMetadata
  | audioB64 (audio : List Char)
  | binaryAudio (bytes : List Nat)
  | userTranscript (t : String)
  | agentResponse (t : String)
  | agentTranscript (t : String)
  | ping (id : String)
  | interruption
  | vadScore
  | unknown
deriving DecidableEq

/-- A transport lifecycle event. -/
inductive WSEvent where
  | openEv
  | message (m : InboundMsg)
  | errorEv
  | closeEv (code : Nat)
deriving DecidableEq

/-- Observable actions of the part_004 hook handlers. -/
inductive HookAction where
  | sendInitClientData
  | sendPong (id : String)
  | appendMessage
  | playAudio (bytes : List Nat)
  | scheduleSetConnected
deriving DecidableEq

/-- Event handlers installed by `connect` in part_004: `onopen` sends the
`conversation_initiation_client_data` envelope and leaves the state as is;
`conversation_initiation_metadata` schedules the transition to `connected`
(modelled as the resulting state); the `ping` branch only logs the probe and
sends nothing; `onclose` returns to `disconnected`; `onerror` sets
`error`. -/
def hookStep_part004 (s : ConnState) (e : WSEvent) :
    ConnState × List HookAction :=
  match e with
  | .openEv => (s, [.sendInitClientData, .appendMessage])
  | .message m =>
    match m with
    | .binaryAudio bytes => (s, [.appendMessage, .playAudio bytes])
    | .agentTranscript _ => (s, [.appendMessage])
    | .userTranscript _ => (s, [.appendMessage])
    | .initMetadata => (.connected, [.scheduleSetConnected])
    | .agentResponse _ => (s, [.appendMessage])
    | .audioB64 audio => (s, [.playAudio (decodeB64 audio), .appendMessage])
    | .ping _ => (s, [])
    | _ => (s, [])
  | .errorEv => (.error, [])
  | .closeEv _ => (.disconnected, [])

/-- Observable actions of the part_003 hook handlers. -/
inductive Hook3Action where
  | sendInitiationAuth
  | appendMessage
  | playAudio (bytes : List Nat)
deriving DecidableEq

/-- Event handlers installed by `connect` in the part_003 variant: `onopen`
immediately runs `setConnectionState('connected')` and then sends the
`conversation_initiation` authentication envelope; only transcript and
binary audio messages are handled. -/
def hookStep_part003 (s : ConnState) (e : WSEvent) :
    ConnState × List Hook3Action :=
  match e with
  | .openEv => (.connected, [.sendInitiationAuth, .appendMessage])
  | .message m =>
    match m with
    | .binaryAudio bytes => (s, [.appendMessage, .playAudio bytes])
    | .agentTranscript _ => (s, [.appendMessage])
    | .userTranscript _ => (s, [.appendMessage])
    | _ => (s, [])
  | .errorEv => (.error, [])
  | .closeEv _ => (.disconnected, [])

/-- Observable actions of the `ElevenLabsService.startConversation`
handlers (part_001). -/
inductive SvcAction where
  | emitConnectionChange (connected : Bool)
  | scheduleStartRecording
  | setConversationId
  | playAudio (audio : List Char)
  | emitMessage (role : String) (text : String)
  | sendPong (id : String)
  | emitError
  | stopRecording
deriving DecidableEq

/-- Event handlers installed by `startConversation` in part_001: `onopen`
emits `connectionChange true` and schedules recording; the `ping` branch
replies with a pong echoing `ping_event.event_id` inside the same message
callback; `onclose` emits `connectionChange false` and stops recording. -/
def svcHandle_part001 (e : WSEvent) : List SvcAction :=
  match e with
  | .openEv => [.emitConnectionChange true, .scheduleStartRecording]
  | .message m =>
    match m with
    | .initMetadata => [.setConversationId]
    | .audioB64 audio => [.playAudio audio]
    | .userTranscript t => [.emitMessage "user" t]
    | .agentResponse t => [.emitMessage "agent" t]
    | .ping id => [.sendPong id]
    | _ => []
  | .errorEv => [.emitError]
  | .closeEv _ => [.emitConnectionChange false, .stopRecording]

/-- Connection state of the part_004 hook after `connect` installed the
handlers (state `connecting`) and the given transport events arrived. -/
def runHook_part004 (events : List WSEvent) : ConnState :=
  events.foldl (fun s e => (hookStep_part004 s e).1) .connecting

/-- Connection state of the part_003 hook after `connect` installed the
handlers (state `connecting`) and the given transport events arrived. -/
def runHook_part003 (events : List WSEvent) : ConnState :=
  events.foldl (fun s e => (hookStep_part003 s e).1) .connecting

/-! ## The playback queue (C2)

`AudioManager.playAudio` / `playAudioBuffer` push onto `audioQueue` and call
`processAudioQueue`, which returns at once when `isPlaying` is already set
and otherwise drains the queue front to back, awaiting the `onended`
callback of each buffer before shifting the next.  The event loop
interleaves `enqueue` calls with `playbackEnded` callbacks; both are
synchronous blocks, so each is one atomic step. -/

/-- State of an `AudioManager`: the pending `audioQueue`, the `isPlaying`
flag, the buffer currently connected to the output (if any), and the log of
buffers whose playback has completed, in completion order. -/
structure PlaybackState (α : Type) where
  audioQueue : List α
  isPlaying : Bool
  current : Option α
  played : List α

/-- An event-loop step affecting the `AudioManager`. -/
inductive PlaybackEvent (α : Type) where
  | enqueue (b : α)
  | playbackEnded

/-- One event-loop step.  `enqueue b` is `playAudio`/`playAudioBuffer`:
push `b`, then `processAudioQueue`, which starts draining (shifts the head
into playback and sets `isPlaying`) unless a drain is already running.
`playbackEnded` is the `onended` callback inside the drain loop: record the
finished buffer; the loop then shifts the next buffer or, when the queue is
empty, clears `isPlaying`. -/
def playbackStep {α : Type} (s : PlaybackState α) (e : PlaybackEvent α) :
    PlaybackState α :=
  match e with
  | .enqueue b =>
    if s.isPlaying then { s with audioQueue := s.audioQueue ++ [b] }
    else
      match s.audioQueue ++ [b] with
      | [] => { s with audioQueue := [] }
      | h :: t =>
        { audioQueue := t, isPlaying := true, current := some h,
          played := s.played }
  | .playbackEnded =>
    match s.current with
    | none => s
    | some c =>
      match s.audioQueue with
      | [] =>
        { audioQueue := [], isPlaying := false, current := none,
          played := s.played ++ [c] }
      | h :: t =>
        { audioQueue := t, isPlaying := true, current := some h,
          played := s.played ++ [c] }

/-- A fresh `AudioManager`: empty queue, not playing. -/
def playbackInit {α : Type} : PlaybackState α :=
  ⟨[], false, none, []⟩

/-- The `AudioManager` state after an interleaving of enqueues and playback
completions. -/
def runPlayback {α : Type} (events : List (PlaybackEvent α)) :
    PlaybackState α :=
  events.foldl playbackStep playbackInit

/-- The buffers enqueued by an event interleaving, in order. -/
def enqueuedOf {α : Type} (events : List (PlaybackEvent α)) : List α :=
  events.filterMap fun e =>
    match e with
    | .enqueue b => some b
    | .playbackEnded => none

/-! ## The capture gate (C4) -/

/-- `onaudioprocess` handler of `usePCMAudioRecorder` (part_005): bail out
when not recording; bail out when a `connectionCheck` gate is supplied and
reports not ready (the frame is dropped, nothing is stored); otherwise
convert the window to 16-bit PCM and hand it to `onAudioData`.
`connectionCheck` is `none` when no gate was supplied, otherwise the value
the gate returns for this frame. -/
def onaudioprocess_part005 (isRecording : Bool)
    (connectionCheck : Option Bool) (inputData : List ℚ) :
    Option (List ℤ) :=
  if !isRecording then none
  else if (match connectionCheck with
           | some ready => !ready
           | none => false) then none
  else some (inputData.map pcmSample_part005)

/-- `sendAudioChunk` of the part_004 hook: only when the WebSocket ref is
set and `connectionState === 'connected'` is the chunk base64-encoded and
written to the transport (and logged in `messages`); empty chunks are
skipped; otherwise nothing is sent and no state changes. -/
def sendAudioChunk_part004 (wsPresent : Bool) (connectionState : ConnState)
    (messages : List (List Nat)) (audioData : List Nat) :
    List (List Nat) × Option (List Char) :=
  if wsPresent ∧ connectionState = ConnState.connected then
    if audioData.isEmpty then (messages, none)
    else (messages ++ [audioData], some (encodeB64 audioData))
  else (messages, none)

/-! ## disconnect (C6) -/

/-- The mutable pieces `disconnect` touches in the WebSocket hooks
(part_003 lines 146-159, part_004 lines 230-243): the WebSocket ref, the
AudioContext ref, the connection state and the error value. -/
structure HookState where
  wsPresent : Bool
  audioCtxOpen : Bool
  connectionState : ConnState
  error : Option String
deriving DecidableEq

/-- Effects `disconnect` can perform on the platform objects. -/
inductive HookEffect where
  | closeWS (code : Nat) (reason : String)
  | closeAudioCtx
deriving DecidableEq

/-- `disconnect` of the hooks: close the WebSocket with the normal-closure
code 1000 if one is held and null the ref, close the AudioContext if open
and null the ref, set the state to `disconnected` and clear the error. -/
def disconnect_hook (s : HookState) : HookState × List HookEffect :=
  (⟨false, false, .disconnected, none⟩,
   (if s.wsPresent then [HookEffect.closeWS 1000 "User disconnected"]
    else []) ++
   (if s.audioCtxOpen then [HookEffect.closeAudioCtx] else []))

/-- The mutable pieces `ElevenLabsService.disconnect` touches
(part_001 lines 318-326). -/
structure SvcState where
  wsPresent : Bool
  agentId : Option String
  conversationId : Option String
deriving DecidableEq

/-- Effects of `ElevenLabsService.disconnect`. -/
inductive SvcEffect where
  | closeWS
  | emitConnectionChange (connected : Bool)
deriving DecidableEq

/-- `ElevenLabsService.disconnect`: close the WebSocket if one is held and
null the ref, clear the agent and conversation ids, and emit
`connectionChange false` (unconditionally). -/
def disconnect_svc (s : SvcState) : SvcState × List SvcEffect :=
  (⟨false, none, none⟩,
   (if s.wsPresent then [SvcEffect.closeWS] else []) ++
   [SvcEffect.emitConnectionChange false])

/-! ## Lemmas about the numeric primitives -/

lemma ratTrunc_le_of_le {q : ℚ} {n : ℤ} (hq : q ≤ (n : ℚ)) (hn : 0 ≤ n) :
    ratTrunc q ≤ n := by
  unfold ratTrunc
  split
  · exact (Int.floor_intCast (α := ℚ) n) ▸ Int.floor_le_floor hq
  · rename_i h
    have hq0 : q ≤ (0 : ℚ) := le_of_lt (lt_of_not_ge h)
    calc ⌈q⌉ ≤ (0 : ℤ) := Int.ceil_le.mpr (by exact_mod_cast hq0)
      _ ≤ n := hn

lemma le_ratTrunc_of_le {q : ℚ} {n : ℤ} (hq : (n : ℚ) ≤ q) (hn : n ≤ 0) :
    n ≤ ratTrunc q := by
  unfold ratTrunc
  split
  · rename_i h
    calc n ≤ 0 := hn
      _ ≤ ⌊q⌋ := Int.floor_nonneg.mpr h
  · exact (Int.ceil_intCast (α := ℚ) n) ▸ Int.ceil_le_ceil hq

/-- On values already inside the signed 16-bit range, the `Int16Array` store
is just truncation toward zero: no wrap-around happens. -/
lemma jsToInt16_eq_ratTrunc {q : ℚ} (h1 : (-32768 : ℚ) ≤ q)
    (h2 : q ≤ (32767 : ℚ)) : jsToInt16 q = ratTrunc q := by
  have hlo : (-32768 : ℤ) ≤ ratTrunc q := by
    have := le_ratTrunc_of_le (n := -32768) (by push_cast; linarith) (by norm_num)
    exact this
  have hhi : ratTrunc q ≤ (32767 : ℤ) := by
    have := ratTrunc_le_of_le (n := 32767) (by push_cast; linarith) (by norm_num)
    exact this
  unfold jsToInt16
  split <;> omega

/-! ## Base64 alphabet lemmas (C9) -/

lemma b64DecChar_b64EncChar : ∀ n, n < 64 → b64DecChar (b64EncChar n) = n := by
  decide

lemma b64EncChar_ne_pad : ∀ n, n < 64 → b64EncChar n ≠ '=' := by
  decide

set_option maxRecDepth 4096 in
lemma char_toNat_ofNat_of_lt : ∀ b, b < 256 → (Char.ofNat b).toNat = b := by
  decide

/-- Decoding inverts encoding chunkwise: the paired sextet arithmetic of
`encodeB64` and `decodeB64` recovers each byte of each 3-byte group and of
the padded 1- and 2-byte tails. -/
lemma decodeB64_encodeB64 (bs : List Nat) (h : ∀ b ∈ bs, b < 256) :
    decodeB64 (encodeB64 bs) = bs := by
  induction bs using encodeB64.induct with
  | case1 => rfl
  | case2 a =>
    have ha : a < 256 := h a (by simp)
    simp [encodeB64, decodeB64]
    rw [b64DecChar_b64EncChar _ (by omega), b64DecChar_b64EncChar _ (by omega)]
    omega
  | case3 a b =>
    have ha : a < 256 := h a (by simp)
    have hb : b < 256 := h b (by simp)
    simp [encodeB64, decodeB64, b64EncChar_ne_pad (b % 16 * 4) (by omega)]
    rw [b64DecChar_b64EncChar _ (by omega), b64DecChar_b64EncChar _ (by omega),
        b64DecChar_b64EncChar _ (by omega)]
    constructor
    · omega
    · omega
  | case4 a b c rest ih =>
    have ha : a < 256 := h a (by simp)
    have hb : b < 256 := h b (by simp)
    have hc : c < 256 := h c (by simp)
    simp [encodeB64, decodeB64,
      b64EncChar_ne_pad (b % 16 * 4 + c / 64) (by omega),
      b64EncChar_ne_pad (c % 64) (by omega)]
    rw [b64DecChar_b64EncChar _ (by omega), b64DecChar_b64EncChar _ (by omega),
        b64DecChar_b64EncChar _ (by omega), b64DecChar_b64EncChar _ (by omega)]
    rw [ih (fun x hx => h x (by simp [hx]))]
    refine ⟨by omega, by omega, by omega, rfl⟩

/-- C9: for every byte buffer, `base64ToArrayBuffer` applied to
`arrayBufferToBase64` returns the buffer byte for byte: the base64
encode/decode pair used for audio chunks is a round-trip identity. -/
theorem base64_roundtrip (buffer : List Nat) (h : ∀ b ∈ buffer, b < 256) :
    base64ToArrayBuffer (arrayBufferToBase64 buffer) = buffer := by
  have hid : ∀ (l : List Nat), (∀ b ∈ l, b < 256) →
      (l.map Char.ofNat).map Char.toNat = l := by
    intro l hl
    rw [List.map_map]
    calc l.map (Char.toNat ∘ Char.ofNat)
        = l.map id := List.map_congr_left
          (fun b hb => char_toNat_ofNat_of_lt b (hl b hb))
      _ = l := List.map_id l
  unfold arrayBufferToBase64 base64ToArrayBuffer
  rw [hid buffer h, decodeB64_encodeB64 buffer h, hid buffer h]

/-- C9 (witness): the round-trip identity evaluated on the concrete buffer
`[0, 77, 255]`. -/
theorem base64_roundtrip_witness :
    base64ToArrayBuffer (arrayBufferToBase64 [0, 77, 255]) = [0, 77, 255] :=
  base64_roundtrip [0, 77, 255] (by decide)

/-! ## C5: the PCM conversions truncate and are not symmetric -/

/-- C5 (counterexample): the claim that the emitted 16-bit PCM value equals
`round(clamp(x, -1, 1) * 32767)` is false on the code.  At `x = 1/2` the
recorder of part_005 emits `16383` (the product `16383.5` is truncated by the
`Int16Array` store) while the claimed formula rounds to `16384`; at `x = -1`
the recorder of part_009 emits `-32768` (negative samples are scaled by
`0x8000`) while the claimed formula gives `-32767`. -/
theorem pcm_conversion_not_round_counterexample :
    pcmSample_part005 (1 / 2) = 16383 ∧ specRoundPCM (1 / 2) = 16384 ∧
    pcmSample_part009 (-1) = -32768 ∧ specRoundPCM (-1) = -32767 := by
  refine ⟨?_, ?_, ?_, ?_⟩
  · unfold pcmSample_part005 jsToInt16 ratTrunc
    norm_num
  · unfold specRoundPCM
    norm_num
  · unfold pcmSample_part009 jsToInt16 ratTrunc
    norm_num
    rw [show ((-32768 : ℚ)) = ((-32768 : ℤ) : ℚ) by norm_num, Int.ceil_intCast]
    decide
  · unfold specRoundPCM
    norm_num

/-- C5 (amended): for every capture sample `x` in `[-1, 1]`, part_005 and
audioUtils emit the value of `x * 32767` truncated toward zero (they do not
round), while part_009 emits `x * 32768` truncated toward zero for negative
samples and `x * 32767` truncated toward zero for non-negative samples (the
conversion is not symmetric in 32767). -/
theorem pcm_conversion_truncates (x : ℚ) (h1 : -1 ≤ x) (h2 : x ≤ 1) :
    pcmSample_part005 x = ratTrunc (x * 32767) ∧
    pcmSample_audioUtils x = ratTrunc (x * 32767) ∧
    pcmSample_part009 x = ratTrunc (x * (if x < 0 then 32768 else 32767)) := by
  have hmin : min (32767 : ℚ) (x * 32767) = x * 32767 :=
    min_eq_right (by nlinarith)
  have hmax : max (-32768 : ℚ) (x * 32767) = x * 32767 :=
    max_eq_right (by nlinarith)
  have hclamp5 : pcmSample_part005 x = ratTrunc (x * 32767) := by
    unfold pcmSample_part005
    rw [hmin, hmax]
    exact jsToInt16_eq_ratTrunc (by nlinarith) (by nlinarith)
  have hmin1 : min (1 : ℚ) x = x := min_eq_right h2
  have hmax1 : max (-1 : ℚ) x = x := max_eq_right h1
  refine ⟨hclamp5, hclamp5, ?_⟩
  unfold pcmSample_part009
  rw [hmin1, hmax1]
  by_cases hx : x < 0
  · rw [if_pos hx, if_pos hx]
    exact jsToInt16_eq_ratTrunc (by nlinarith) (by nlinarith)
  · rw [if_neg hx, if_neg hx]
    exact jsToInt16_eq_ratTrunc (by nlinarith) (by nlinarith)

/-- C5 (witness): the amended statement evaluated at the concrete sample
`x = -3/4`. -/
theorem pcm_conversion_truncates_witness :
    pcmSample_part005 (-3 / 4) = ratTrunc (-3 / 4 * 32767) ∧
    pcmSample_audioUtils (-3 / 4) = ratTrunc (-3 / 4 * 32767) ∧
    pcmSample_part009 (-3 / 4) =
      ratTrunc (-3 / 4 * (if (-3 / 4 : ℚ) < 0 then 32768 else 32767)) :=
  pcm_conversion_truncates (-3 / 4) (by norm_num) (by norm_num)

/-! ## C10: convertWebMToPCM never rejects -/

/-- C10: `convertWebMToPCM` resolves for every input and every behaviour of
the platform decoder; when decoding fails it resolves with the 1600-sample
all-zero PCM buffer, indistinguishable at the interface from successfully
decoded silence. -/
theorem convertWebMToPCM_never_rejects
    (decodeAudioData : List Nat → Except String (List ℚ))
    (webmData : List Nat) :
    (convertWebMToPCM decodeAudioData webmData).isOk = true ∧
    (∀ e, decodeAudioData webmData = .error e →
      convertWebMToPCM decodeAudioData webmData =
        .ok (List.replicate 1600 0)) := by
  cases h : decodeAudioData webmData with
  | ok channelData =>
    refine ⟨?_, ?_⟩
    · unfold convertWebMToPCM
      rw [h]
      rfl
    · intro e he
      exact absurd he (by simp)
  | error err =>
    refine ⟨?_, ?_⟩
    · unfold convertWebMToPCM
      rw [h]
      rfl
    · intro e he
      unfold convertWebMToPCM
      rw [h]

/-- C10 (witness): a decoder that always fails still yields a resolved
100 ms silence buffer. -/
theorem convertWebMToPCM_never_rejects_witness :
    (convertWebMToPCM (fun _ => .error "EncodingError") [1, 2, 3]).isOk
        = true ∧
    convertWebMToPCM (fun _ => .error "EncodingError") [1, 2, 3] =
      .ok (List.replicate 1600 0) :=
  ⟨(convertWebMToPCM_never_rejects _ _).1,
   (convertWebMToPCM_never_rejects _ _).2 "EncodingError" rfl⟩

/-! ## C8: the polling loop's timeout error is unreachable -/

/-- C8: when every attempt reports the processing vocabulary, the final
attempt falls through the `attempt < maxAttempts - 1` guard and the loop
returns the last attempt's error verbatim, not the distinct
`'Video processing timeout - max attempts reached'` result, which is
unreachable for any positive attempt budget. -/
theorem pollVideoStatus_returns_last_error_not_timeout :
    pollVideoStatus (fun _ => .err "Video still processing") 2 =
      ⟨false, none, some "Video still processing"⟩ ∧
    pollVideoStatus (fun _ => .err "Video still processing") 2 ≠
      pollTimeoutResult := by
  constructor
  · decide
  · decide

/-! ## C7: the part_008 upload variant trusts HTTP status alone -/

/-- C7 (counterexample): the part_008 `uploadVideo` variant resolves an
HTTP 200 response whose body carries the non-success application code
`"1001"` as a success, refuting the claim for that upload path. -/
theorem upload_part008_http_success_ignores_app_code :
    uploadVideoLoad_part008 200 (some ⟨"1001", some "quota exceeded", none⟩) =
      ⟨true, some ⟨"1001", some "quota exceeded", none⟩, none⟩ := by
  decide

/-- C7 (amended): in the upload client of src/lib/memories-api.ts, an HTTP
2xx response whose body carries an application code other than `"0000"`
resolves as a failure carrying the body's `msg` (with the default
`'Upload failed'` when `msg` is absent or empty). -/
theorem uploadVideoLoad_app_code_decides (status : Nat) (body : UploadBody)
    (h2xx : 200 ≤ status ∧ status < 300) (hcode : body.code ≠ "0000") :
    uploadVideoLoad status (some body) =
      ⟨false, none, some (jsStringOr body.msg "Upload failed")⟩ := by
  simp only [uploadVideoLoad]
  rw [if_pos h2xx, if_neg hcode]

/-- C7 (witness): the amended statement at HTTP 200 with body code `"1001"`
and message `"quota exceeded"`. -/
theorem uploadVideoLoad_app_code_decides_witness :
    uploadVideoLoad 200 (some ⟨"1001", some "quota exceeded", none⟩) =
      ⟨false, none,
       some (jsStringOr (some "quota exceeded") "Upload failed")⟩ :=
  uploadVideoLoad_app_code_decides 200 ⟨"1001", some "quota exceeded", none⟩
    (by decide) (by decide)

/-! ## C1: two connection paths flip to Connected on transport-open -/

/-- C1: the part_003 hook reaches `connected` on the transport-open event
alone, and `ElevenLabsService` emits `connectionChange true` directly in its
`onopen` handler — both before any `conversation_initiation_metadata`
acknowledgement; only the part_004 hook conforms, staying in `connecting`
after open and reaching `connected` exactly on the acknowledgement. -/
theorem connected_on_transport_open_alone :
    runHook_part003 [WSEvent.openEv] = ConnState.connected ∧
    svcHandle_part001 WSEvent.openEv =
      [SvcAction.emitConnectionChange true,
       SvcAction.scheduleStartRecording] ∧
    runHook_part004 [WSEvent.openEv] = ConnState.connecting ∧
    runHook_part004
        [WSEvent.openEv, WSEvent.message InboundMsg.initMetadata] =
      ConnState.connected := by
  decide

/-! ## C3: the part_004 hook never answers a ping -/

/-- C3: on an inbound keep-alive ping with identifier `"abc"`, the part_004
hook's message handler performs no action at all — in particular it sends no
pong — while the `ElevenLabsService` handler replies with exactly one pong
echoing `"abc"` within the same message callback. -/
theorem ping_unanswered_part004 :
    (hookStep_part004 ConnState.connected
        (WSEvent.message (InboundMsg.ping "abc"))).2 = [] ∧
    svcHandle_part001 (WSEvent.message (InboundMsg.ping "abc")) =
      [SvcAction.sendPong "abc"] := by
  decide

/-! ## C2: the playback queue drains strictly FIFO -/

/-- One step of the playback loop preserves the queue discipline: the
`isPlaying` flag tracks whether a buffer occupies the output, and the
concatenation played-so-far ++ in-flight ++ pending grows exactly by the
enqueued buffer (nothing is dropped, duplicated or reordered). -/
lemma playbackStep_invariant {α : Type} (s : PlaybackState α)
    (e : PlaybackEvent α) (hg : s.isPlaying = s.current.isSome) :
    (playbackStep s e).isPlaying = (playbackStep s e).current.isSome ∧
    (playbackStep s e).played ++ (playbackStep s e).current.toList ++
        (playbackStep s e).audioQueue =
      s.played ++ s.current.toList ++ s.audioQueue ++
        (match e with
         | .enqueue b => [b]
         | .playbackEnded => []) := by
  cases e with
  | enqueue b =>
    by_cases hp : s.isPlaying
    · simp [playbackStep, hp, hg ▸ hp]
    · have hc : s.current = none := by
        have : s.current.isSome = false := by
          rw [← hg]
          exact Bool.not_eq_true _ ▸ hp
        exact Option.not_isSome_iff_eq_none.mp (by simp [this])
      cases hq : s.audioQueue with
      | nil => simp [playbackStep, hp, hq, hc]
      | cons h t => simp [playbackStep, hp, hq, hc]
  | playbackEnded =>
    cases hcur : s.current with
    | none =>
      have hp : s.isPlaying = false := by rw [hg, hcur]; rfl
      simp [playbackStep, hcur, hp]
    | some c =>
      cases hq : s.audioQueue with
      | nil => simp [playbackStep, hcur, hq]
      | cons h t => simp [playbackStep, hcur, hq]

/-- C2: for every interleaving of enqueues and playback completions, at most
one buffer occupies the output at any instant (`isPlaying` tracks the single
in-flight buffer), and completed ++ in-flight ++ pending equals the full
enqueue sequence in order — so buffers render strictly FIFO, none is dropped
even when new buffers arrive mid-playback, and the completed list is always
a prefix of the enqueue order. -/
theorem playback_fifo {α : Type} (events : List (PlaybackEvent α)) :
    (runPlayback events).isPlaying = (runPlayback events).current.isSome ∧
    (runPlayback events).played ++ (runPlayback events).current.toList ++
        (runPlayback events).audioQueue = enqueuedOf events ∧
    ∃ pending, (runPlayback events).played ++ pending = enqueuedOf events := by
  have main : (runPlayback events).isPlaying =
      (runPlayback events).current.isSome ∧
      (runPlayback events).played ++ (runPlayback events).current.toList ++
        (runPlayback events).audioQueue = enqueuedOf events := by
    induction events using List.reverseRecOn with
    | nil => simp [runPlayback, playbackInit, enqueuedOf]
    | append_singleton es e ih =>
      have henq : enqueuedOf (es ++ [e]) = enqueuedOf es ++
          (match e with
           | .enqueue b => [b]
           | .playbackEnded => []) := by
        cases e <;> simp [enqueuedOf, List.filterMap_append]
      have hrun : runPlayback (es ++ [e]) =
          playbackStep (runPlayback es) e := by
        simp [runPlayback, List.foldl_append]
      obtain ⟨h1, h2⟩ := ih
      obtain ⟨g1, g2⟩ := playbackStep_invariant (runPlayback es) e h1
      refine ⟨by rw [hrun]; exact g1, ?_⟩
      rw [hrun, g2, h2]
      exact henq.symm
  exact ⟨main.1, main.2,
    ⟨(runPlayback events).current.toList ++ (runPlayback events).audioQueue,
     by rw [← List.append_assoc, main.2]⟩⟩

/-! ## C4: frames are dropped, not buffered, while the gate is closed -/

/-- C4: while the connection gate reports not ready — the recorder's
`connectionCheck` returns `false`, or the hook's `connectionState` is not
`connected` — a capture frame is neither forwarded (`onAudioData` is never
called, no send happens) nor stored anywhere: the recorder handler returns
without touching state and `sendAudioChunk` leaves the message log
unchanged. -/
theorem frames_dropped_when_gate_closed (isRecording : Bool)
    (inputData : List ℚ) (wsPresent : Bool) (st : ConnState)
    (messages : List (List Nat)) (audioData : List Nat)
    (hst : st ≠ ConnState.connected) :
    onaudioprocess_part005 isRecording (some false) inputData = none ∧
    sendAudioChunk_part004 wsPresent st messages audioData =
      (messages, none) := by
  constructor
  · unfold onaudioprocess_part005
    cases isRecording <;> simp
  · unfold sendAudioChunk_part004
    rw [if_neg (fun h => hst h.2)]

/-- C4 (witness): a concrete frame captured while recording with the gate
closed, and a concrete chunk offered while still `connecting`. -/
theorem frames_dropped_when_gate_closed_witness :
    onaudioprocess_part005 true (some false) [1 / 2] = none ∧
    sendAudioChunk_part004 true ConnState.connecting [] [7, 7] =
      ([], none) :=
  frames_dropped_when_gate_closed true [1 / 2] true ConnState.connecting []
    [7, 7] (by decide)

/-! ## C6: disconnect is idempotent -/

/-- C6: from any non-disconnected state, `disconnect` moves the hook to
`Disconnected` and clears the error; a second call is a no-op on the state
(exactly one transition across the two calls) and performs no platform
effects, and it raises nothing.  `ElevenLabsService.disconnect` is likewise
idempotent on its state. -/
theorem disconnect_idempotent (s : HookState) (t : SvcState)
    (hs : s.connectionState ≠ ConnState.disconnected) :
    (disconnect_hook s).1.connectionState = ConnState.disconnected ∧
    s.connectionState ≠ (disconnect_hook s).1.connectionState ∧
    (disconnect_hook (disconnect_hook s).1).1 = (disconnect_hook s).1 ∧
    (disconnect_hook s).1.error = none ∧
    (disconnect_hook (disconnect_hook s).1).2 = [] ∧
    (disconnect_svc (disconnect_svc t).1).1 = (disconnect_svc t).1 := by
  exact ⟨rfl, fun h => hs h, rfl, rfl, rfl, rfl⟩

/-- C6 (witness): the idempotence statement from a connected hook state and
a live service state. -/
theorem disconnect_idempotent_witness :
    (disconnect_hook ⟨true, true, ConnState.connected, none⟩).1.connectionState
        = ConnState.disconnected ∧
    (⟨true, true, ConnState.connected, none⟩ : HookState).connectionState ≠
      (disconnect_hook ⟨true, true, ConnState.connected, none⟩).1.connectionState ∧
    (disconnect_hook
        (disconnect_hook ⟨true, true, ConnState.connected, none⟩).1).1 =
      (disconnect_hook ⟨true, true, ConnState.connected, none⟩).1 ∧
    (disconnect_hook ⟨true, true, ConnState.connected, none⟩).1.error = none ∧
    (disconnect_hook
        (disconnect_hook ⟨true, true, ConnState.connected, none⟩).1).2 = [] ∧
    (disconnect_svc
        (disconnect_svc ⟨true, some "agent_1", some "conv_1"⟩).1).1 =
      (disconnect_svc ⟨true, some "agent_1", some "conv_1"⟩).1 :=
  disconnect_idempotent ⟨true, true, ConnState.connected, none⟩
    ⟨true, some "agent_1", some "conv_1"⟩ (by decide)

end DashMap
